import Mathlib

/-!
# Verification of the zesty transaction-nesting provider

Shallow embedding of `zesty/zesty.go` (package `zesty` of loopfz/gadgeto).

The provider `zestyprovider` wraps a database handle and an optional open
transaction, together with a nesting counter.  The underlying database and
transaction are abstracted by type parameters `δ` (the `DB`) and `τ` (the
`Tx` handle); the behaviour of the underlying driver for one provider call
is abstracted by a record of response functions (`DBSem`): each underlying
operation either succeeds (`none` / `.ok`) or fails with a driver error of
type `ε`.

Each Go method mutates the receiver and returns an `error`.  We embed a
method call as a function from the provider state to a `StepOut`: the
returned error (if any), the provider state after the call (the receiver is
unchanged on every early-return path of the source), and the trace of
underlying operations the call performed, in order.
-/

namespace Zesty

/-- Errors returned by the provider: either the dedicated
`errors.New("No active Tx")` value, or an error of the underlying driver
surfaced unchanged (`ε` is the driver error type; `under e` is the sum
injection of the driver error `e`). -/
inductive ZError (ε : Type) where
  | noActiveTx : ZError ε
  | under (e : ε) : ZError ε
deriving DecidableEq, Repr

/-- The SQL executor currently in effect: the base DB or an open
transaction.  Embeds the dynamic `gorp.SqlExecutor` field `current` of
`zestyprovider`. -/
inductive Executor (δ τ : Type) where
  | base (d : δ)
  | intx (t : τ)
deriving DecidableEq, Repr

/-- An underlying operation performed by a provider call on the DB or on
the open transaction, as observed by the driver. -/
inductive DBOp where
  | beginTx : DBOp
  | savepoint (name : String) : DBOp
  | commit : DBOp
  | rollback : DBOp
  | rollbackToSavepoint (name : String) : DBOp
deriving DecidableEq, Repr

/-- Driver responses for one provider call: how the underlying DB answers
`Begin`, and how the open transaction answers `Savepoint`, `Commit`,
`Rollback`, `RollbackToSavepoint`.  `none` means success; `some e` means
failure with driver error `e`. -/
structure DBSem (δ τ ε : Type) where
  Begin : δ → Except ε τ
  Savepoint : τ → String → Option ε
  Commit : τ → Option ε
  Rollback : τ → Option ε
  RollbackToSavepoint : τ → String → Option ε

/-- The provider state: `zestyprovider` of zesty.go.
`current` is the executor handed out by `DB()`; `db` is the base DB
(constant for the life of the provider); `tx` is the open transaction, if any
(`nil` in Go is `none`); `nested` is the Go `int` nesting counter. -/
structure zestyprovider (δ τ : Type) where
  current : Executor δ τ
  db : δ
  tx : Option τ
  nested : Int
deriving DecidableEq, Repr

/-- Outcome of one provider method call: the returned `error` (`none` for a
`nil` return), the receiver state after the call, and the trace of
underlying operations performed. -/
structure StepOut (δ τ ε : Type) where
  err : Option (ZError ε)
  zp : zestyprovider δ τ
  trace : List DBOp
deriving DecidableEq, Repr

/-- `NewTempDBProvider(db)`: a fresh provider, Go zero values for the
`tx` and `nested` fields. -/
def NewTempDBProvider (db : δ) : zestyprovider δ τ :=
  { current := Executor.base db, db := db, tx := none, nested := 0 }

/-- The savepoint name `fmt.Sprintf("tx-nested-%d", n)` used by `Tx` (with
`zp.nested+1`) and `Rollback` (with `zp.nested`). -/
def savepointName (n : Int) : String :=
  "tx-nested-" ++ toString n

namespace zestyprovider

/-- `(*zestyprovider).DB()`: returns the current executor. -/
def DB (zp : zestyprovider δ τ) : Executor δ τ :=
  zp.current

/-- `(*zestyprovider).resetTx()`: restore the base DB as current executor
and clear the transaction handle. -/
def resetTx (zp : zestyprovider δ τ) : zestyprovider δ τ :=
  { zp with current := Executor.base zp.db, tx := none }

/-- `(*zestyprovider).Tx()`: with an open transaction, create the savepoint
`tx-nested-(nested+1)` and on success increment `nested`; otherwise begin a
real transaction on the DB and on success install it as `tx` and
`current`. -/
def Tx (env : DBSem δ τ ε) (zp : zestyprovider δ τ) : StepOut δ τ ε :=
  match zp.tx with
  | some t =>
      let s := savepointName (zp.nested + 1)
      match env.Savepoint t s with
      | some e => ⟨some (ZError.under e), zp, [DBOp.savepoint s]⟩
      | none => ⟨none, { zp with nested := zp.nested + 1 }, [DBOp.savepoint s]⟩
  | none =>
      match env.Begin zp.db with
      | Except.error e => ⟨some (ZError.under e), zp, [DBOp.beginTx]⟩
      | Except.ok t =>
          ⟨none, { zp with tx := some t, current := Executor.intx t }, [DBOp.beginTx]⟩

/-- `(*zestyprovider).Commit()`: error if no transaction; decrement the
counter without touching the driver when nested; otherwise a real commit,
resetting the provider on success. -/
def Commit (env : DBSem δ τ ε) (zp : zestyprovider δ τ) : StepOut δ τ ε :=
  match zp.tx with
  | none => ⟨some ZError.noActiveTx, zp, []⟩
  | some t =>
      if 0 < zp.nested then
        ⟨none, { zp with nested := zp.nested - 1 }, []⟩
      else
        match env.Commit t with
        | some e => ⟨some (ZError.under e), zp, [DBOp.commit]⟩
        | none => ⟨none, zp.resetTx, [DBOp.commit]⟩

/-- `(*zestyprovider).Rollback()`: error if no transaction; when nested,
roll back to the savepoint `tx-nested-nested` and on success decrement;
otherwise a real rollback, resetting the provider on success. -/
def Rollback (env : DBSem δ τ ε) (zp : zestyprovider δ τ) : StepOut δ τ ε :=
  match zp.tx with
  | none => ⟨some ZError.noActiveTx, zp, []⟩
  | some t =>
      if 0 < zp.nested then
        let s := savepointName zp.nested
        match env.RollbackToSavepoint t s with
        | some e => ⟨some (ZError.under e), zp, [DBOp.rollbackToSavepoint s]⟩
        | none => ⟨none, { zp with nested := zp.nested - 1 }, [DBOp.rollbackToSavepoint s]⟩
      else
        match env.Rollback t with
        | some e => ⟨some (ZError.under e), zp, [DBOp.rollback]⟩
        | none => ⟨none, zp.resetTx, [DBOp.rollback]⟩

/-- `(*zestyprovider).Close()`: delegates to the DB, never touches the
provider fields.  `close` is the `Close` method of the underlying DB. -/
def Close (close : δ → Option ε) (zp : zestyprovider δ τ) :
    Option ε × zestyprovider δ τ :=
  (close zp.db, zp)

/-- `(*zestyprovider).Ping()`: delegates to the DB, never touches the
provider fields. -/
def Ping (ping : δ → Option ε) (zp : zestyprovider δ τ) :
    Option ε × zestyprovider δ τ :=
  (ping zp.db, zp)

/-- `(*zestyprovider).Stats()`: delegates to the DB, never touches the
provider fields.  `σ` stands for `sql.DBStats`. -/
def Stats (stats : δ → σ) (zp : zestyprovider δ τ) :
    σ × zestyprovider δ τ :=
  (stats zp.db, zp)

end zestyprovider

/-- Errors of the registry functions `RegisterDB` / `UnregisterDB` /
`NewDBProvider` (`fmt.Errorf` values). -/
inductive RegError where
  | nameConflict (name : String) : RegError
  | noSuchDB (name : String) : RegError
deriving DecidableEq, Repr

/-- The process-wide registered-databases map `dbs`, embedded as an
association list (RegisterDB refuses duplicate names, so lookup of the
first binding agrees with the Go map). -/
def Registry (δ : Type) : Type := List (String × δ)

/-- `RegisterDB(db, name)`: fails on a name conflict, otherwise adds the
binding. -/
def RegisterDB (dbs : Registry δ) (db : δ) (name : String) :
    Except RegError (Registry δ) :=
  match (List.lookup name dbs : Option δ) with
  | some _ => Except.error (RegError.nameConflict name)
  | none => Except.ok ((name, db) :: dbs)

/-- `UnregisterDB(name)`: fails if absent, otherwise removes the
binding. -/
def UnregisterDB (dbs : Registry δ) (name : String) :
    Except RegError (Registry δ) :=
  match (List.lookup name dbs : Option δ) with
  | none => Except.error (RegError.noSuchDB name)
  | some _ => Except.ok (dbs.filter (fun p => p.1 ≠ name))

/-- `NewDBProvider(name)`: looks the DB up in the registry and returns a
fresh provider over it. -/
def NewDBProvider (dbs : Registry δ) (name : String) :
    Except RegError (zestyprovider δ τ) :=
  match (List.lookup name dbs : Option δ) with
  | none => Except.error (RegError.noSuchDB name)
  | some db =>
      Except.ok { current := Executor.base db, db := db, tx := none, nested := 0 }

/-- The provider states reachable from a fresh provider over the DB `d0`
by any sequence of `Tx` / `Commit` / `Rollback` / `Close` / `Ping` /
`Stats` / `DB` calls, each call served by an arbitrary driver
behaviour. -/
inductive Reachable (ε : Type) (d0 : δ) : zestyprovider δ τ → Prop where
  | init : Reachable ε d0 (NewTempDBProvider d0)
  | tx (env : DBSem δ τ ε) {zp : zestyprovider δ τ} :
      Reachable ε d0 zp → Reachable ε d0 (zp.Tx env).zp
  | commit (env : DBSem δ τ ε) {zp : zestyprovider δ τ} :
      Reachable ε d0 zp → Reachable ε d0 (zp.Commit env).zp
  | rollback (env : DBSem δ τ ε) {zp : zestyprovider δ τ} :
      Reachable ε d0 zp → Reachable ε d0 (zp.Rollback env).zp
  | close (f : δ → Option ε) {zp : zestyprovider δ τ} :
      Reachable ε d0 zp → Reachable ε d0 (zp.Close f).2
  | ping (f : δ → Option ε) {zp : zestyprovider δ τ} :
      Reachable ε d0 zp → Reachable ε d0 (zp.Ping f).2

/-- Sequence of `Tx()` calls, each served by its own driver behaviour;
`none` as soon as one call returns an error, otherwise the final provider
state. -/
def txAll : List (DBSem δ τ ε) → zestyprovider δ τ → Option (zestyprovider δ τ)
  | [], zp => some zp
  | env :: rest, zp =>
      match (zp.Tx env).err with
      | some _ => none
      | none => txAll rest (zp.Tx env).zp

/-- Modelled from the spec: the depth-returning transaction-entering
operation (`TxSavepoint` in `zesty_test.go`), whose implementation is not
among the sources; only its caller, the test, is.  Per the spec,
EnterTransaction behaves like `Tx` and additionally "returns the depth
value at which the unit of work now sits (0 for a fresh `Open`, `n+1` for
a nested entry)"; the depth component is meaningful on success. -/
def zestyprovider.TxSavepoint (env : DBSem δ τ ε) (zp : zestyprovider δ τ) :
    StepOut δ τ ε × Int :=
  match zp.tx with
  | some _ => (zp.Tx env, zp.nested + 1)
  | none => (zp.Tx env, 0)

/-- Modelled from the spec: `RollbackTo(level)`, whose implementation is
not among the sources; only its caller, the test, is.  Per the spec, it
"rolls back to the savepoint recorded for `level` (any level between 1 and
current `depth`), setting `depth = level`; if the savepoint of the target
level
no longer exists (already consumed by a prior Rollback/Commit at or below
that level), this is a no-op that succeeds". -/
def zestyprovider.RollbackTo (env : DBSem δ τ ε) (zp : zestyprovider δ τ)
    (level : Int) : StepOut δ τ ε :=
  match zp.tx with
  | some t =>
      if 1 ≤ level ∧ level ≤ zp.nested then
        let s := savepointName level
        match env.RollbackToSavepoint t s with
        | some e => ⟨some (ZError.under e), zp, [DBOp.rollbackToSavepoint s]⟩
        | none => ⟨none, { zp with nested := level }, [DBOp.rollbackToSavepoint s]⟩
      else
        ⟨none, zp, []⟩
  | none => ⟨none, zp, []⟩

/-- A driver behaviour over concrete carriers (`δ = τ = ε = Nat`) where
every underlying operation succeeds; `Begin` hands out transaction
handle 5. -/
def envOK : DBSem Nat Nat Nat :=
  { Begin := fun _ => Except.ok 5
    Savepoint := fun _ _ => none
    Commit := fun _ => none
    Rollback := fun _ => none
    RollbackToSavepoint := fun _ _ => none }

/-- A driver behaviour where every underlying operation fails with driver
error 7. -/
def envBad : DBSem Nat Nat Nat :=
  { Begin := fun _ => Except.error 7
    Savepoint := fun _ _ => some 7
    Commit := fun _ => some 7
    Rollback := fun _ => some 7
    RollbackToSavepoint := fun _ _ => some 7 }

/-- A concrete provider in state `Nested(2)`: open transaction handle 5
over DB 0, nesting counter 2. -/
def zpNested2 : zestyprovider Nat Nat :=
  { current := Executor.intx 5, db := 0, tx := some 5, nested := 2 }

/-- A concrete provider in state `Nested(1)` over DB 0, transaction
handle 5. -/
def zpNested1 : zestyprovider Nat Nat :=
  { current := Executor.intx 5, db := 0, tx := some 5, nested := 1 }

/-- A concrete provider in state `Open` (transaction handle 5 over DB 0,
nesting counter 0). -/
def zpOpen : zestyprovider Nat Nat :=
  { current := Executor.intx 5, db := 0, tx := some 5, nested := 0 }

/-- A different concrete provider, also in `Nested(1)`: DB 1, transaction
handle 9. -/
def zpOther : zestyprovider Nat Nat :=
  { current := Executor.intx 9, db := 1, tx := some 9, nested := 1 }

/-!
## Helper lemmas
-/

/-- A run of successful `Tx()` calls from a state with an open transaction
adds the number of calls to the nesting counter and keeps the transaction
handle. -/
theorem txAll_open (envs : List (DBSem δ τ ε)) :
    ∀ (zp zp2 : zestyprovider δ τ) (t : τ), zp.tx = some t →
      txAll envs zp = some zp2 →
      zp2.nested = zp.nested + envs.length ∧ zp2.tx = some t := by
  induction envs with
  | nil =>
      intro zp zp2 t htx h
      simp only [txAll, Option.some.injEq] at h
      subst h
      simp [htx]
  | cons env rest ih =>
      intro zp zp2 t htx h
      simp only [txAll, zestyprovider.Tx, htx] at h
      rcases hsp : env.Savepoint t (savepointName (zp.nested + 1)) with _ | e
      · rw [hsp] at h
        simp only at h
        have := ih _ zp2 t rfl h
        rcases this with ⟨h1, h2⟩
        refine ⟨?_, h2⟩
        simp only at h1
        rw [h1]
        simp only [List.length_cons]
        push_cast
        ring
      · rw [hsp] at h
        simp at h

/-- C1 -- After `n ≥ 1` consecutive successful `Tx()` calls on a fresh
provider, the nesting counter equals `n - 1` and a transaction is open:
the first call begins the one real transaction (depth stays 0) and each
subsequent call creates one savepoint and increments the depth. -/
theorem tx_depth_after_n_calls (envs : List (DBSem δ τ ε)) (d0 : δ)
    (zp2 : zestyprovider δ τ) (hlen : 1 ≤ envs.length)
    (h : txAll envs (NewTempDBProvider d0) = some zp2) :
    zp2.nested = (envs.length : Int) - 1 ∧ zp2.tx ≠ none := by
  rcases envs with _ | ⟨env, rest⟩
  · simp at hlen
  · simp only [txAll, zestyprovider.Tx, NewTempDBProvider] at h
    rcases hb : env.Begin d0 with e | t
    · rw [hb] at h
      simp at h
    · rw [hb] at h
      simp only at h
      have := txAll_open rest _ zp2 t rfl h
      rcases this with ⟨h1, h2⟩
      constructor
      · simp only at h1
        rw [h1]
        simp only [List.length_cons]
        push_cast
        ring
      · simp [h2]

/-- Witness for C1 at a concrete run of three successful calls. -/
theorem tx_depth_after_n_calls_witness :
    txAll [envOK, envOK, envOK] (NewTempDBProvider 0) =
      some { current := Executor.intx 5, db := 0, tx := some 5, nested := 2 } ∧
    ({ current := Executor.intx 5, db := 0, tx := some 5, nested := 2 } :
        zestyprovider Nat Nat).nested = (3 : Int) - 1 := by
  refine ⟨by decide, ?_⟩
  exact (tx_depth_after_n_calls [envOK, envOK, envOK] 0 _ (by decide) (by decide)).1

/-- The provider invariant: the transaction handle is present exactly when
the current executor is that transaction (otherwise the current executor
is the base DB); a positive nesting counter implies an open transaction;
and the nesting counter is never negative. -/
def Inv (zp : zestyprovider δ τ) : Prop :=
  ((∃ t, zp.tx = some t ∧ zp.current = Executor.intx t) ↔ zp.tx.isSome) ∧
  (zp.tx = none → zp.current = Executor.base zp.db) ∧
  (0 < zp.nested → zp.tx.isSome) ∧
  0 ≤ zp.nested

theorem Inv_init (d0 : δ) : Inv (NewTempDBProvider d0 : zestyprovider δ τ) := by
  simp [Inv, NewTempDBProvider]

theorem Inv_tx (env : DBSem δ τ ε) (zp : zestyprovider δ τ) (h : Inv zp) :
    Inv (zp.Tx env).zp := by
  rcases h with ⟨h1, h2, h3, h4⟩
  rcases htx : zp.tx with _ | t
  · simp only [zestyprovider.Tx, htx]
    rcases hb : env.Begin zp.db with e | t
    · exact ⟨h1, h2, h3, h4⟩
    · refine ⟨?_, ?_, ?_, h4⟩
      · simp
      · simp
      · simp
  · simp only [zestyprovider.Tx, htx]
    rcases hsp : env.Savepoint t (savepointName (zp.nested + 1)) with _ | e
    · refine ⟨?_, ?_, ?_, ?_⟩
      · simpa [htx] using h1
      · simp [htx]
      · simp [htx]
      · simp only
        omega
    · exact ⟨h1, h2, h3, h4⟩

theorem Inv_commit (env : DBSem δ τ ε) (zp : zestyprovider δ τ) (h : Inv zp) :
    Inv (zp.Commit env).zp := by
  rcases h with ⟨h1, h2, h3, h4⟩
  rcases htx : zp.tx with _ | t
  · simpa only [zestyprovider.Commit, htx] using ⟨h1, h2, h3, h4⟩
  · simp only [zestyprovider.Commit, htx]
    by_cases hn : 0 < zp.nested
    · rw [if_pos hn]
      refine ⟨?_, ?_, ?_, ?_⟩
      · simpa [htx] using h1
      · simp [htx]
      · simp [htx]
      · simp only
        omega
    · rw [if_neg hn]
      rcases hc : env.Commit t with _ | e
      · refine ⟨?_, ?_, ?_, ?_⟩
        · simp [zestyprovider.resetTx]
        · simp [zestyprovider.resetTx]
        · simp only [zestyprovider.resetTx]
          omega
        · simpa [zestyprovider.resetTx] using h4
      · exact ⟨h1, h2, h3, h4⟩

theorem Inv_rollback (env : DBSem δ τ ε) (zp : zestyprovider δ τ) (h : Inv zp) :
    Inv (zp.Rollback env).zp := by
  rcases h with ⟨h1, h2, h3, h4⟩
  rcases htx : zp.tx with _ | t
  · simpa only [zestyprovider.Rollback, htx] using ⟨h1, h2, h3, h4⟩
  · simp only [zestyprovider.Rollback, htx]
    by_cases hn : 0 < zp.nested
    · rw [if_pos hn]
      rcases hr : env.RollbackToSavepoint t (savepointName zp.nested) with _ | e
      · refine ⟨?_, ?_, ?_, ?_⟩
        · simpa [htx] using h1
        · simp [htx]
        · simp [htx]
        · simp only
          omega
      · exact ⟨h1, h2, h3, h4⟩
    · rw [if_neg hn]
      rcases hr : env.Rollback t with _ | e
      · refine ⟨?_, ?_, ?_, ?_⟩
        · simp [zestyprovider.resetTx]
        · simp [zestyprovider.resetTx]
        · simp only [zestyprovider.resetTx]
          omega
        · simpa [zestyprovider.resetTx] using h4
      · exact ⟨h1, h2, h3, h4⟩

/-- C2 -- In every provider state reachable from a fresh provider by any
sequence of `Tx` / `Commit` / `Rollback` / `Close` / `Ping` / `Stats` /
`DB` calls, the invariant `Inv` holds: the transaction handle is present
iff the current executor is that transaction (otherwise the current
executor is the base DB), positive depth implies an open transaction, and
the depth is never negative. -/
theorem reachable_Inv {d0 : δ} {zp : zestyprovider δ τ}
    (h : Reachable ε d0 zp) : Inv zp := by
  induction h with
  | init => exact Inv_init d0
  | tx env _ ih => exact Inv_tx env _ ih
  | commit env _ ih => exact Inv_commit env _ ih
  | rollback env _ ih => exact Inv_rollback env _ ih
  | close f _ ih => exact ih
  | ping f _ ih => exact ih

/-- Witness for C2 on a concrete reachable state (fresh provider, then one
`Tx` call served by `envOK`). -/
theorem reachable_Inv_witness :
    Inv ((NewTempDBProvider 0 : zestyprovider Nat Nat).Tx envOK).zp :=
  reachable_Inv (Reachable.tx envOK (Reachable.init (ε := Nat)))

/-- C3 -- `Commit()` in state `Nested(n)`, `n ≥ 1`, performs no underlying
operation at all (empty trace), always succeeds, and changes the provider
only by decrementing the nesting counter to `n - 1`; the current executor,
the DB and the transaction handle are untouched. -/
theorem commit_nested_frame (env : DBSem δ τ ε) (zp : zestyprovider δ τ)
    (t : τ) (n : Int) (htx : zp.tx = some t) (hn : zp.nested = n)
    (h1 : 1 ≤ n) :
    zp.Commit env = ⟨none, { zp with nested := n - 1 }, []⟩ := by
  simp only [zestyprovider.Commit, htx]
  rw [if_pos (by omega)]
  simp [hn]

/-- Witness for C3 at `Nested(2)` with an always-failing driver. -/
theorem commit_nested_frame_witness :
    zpNested2.tx = some 5 ∧ zpNested2.nested = 2 ∧
    zpNested2.Commit envBad =
      ⟨none, { current := Executor.intx 5, db := 0, tx := some 5, nested := 1 }, []⟩ := by
  refine ⟨by decide, by decide, ?_⟩
  exact commit_nested_frame envBad zpNested2 5 2 (by decide) (by decide) (by decide)

/-- C4 -- `Rollback()` in state `Nested(n)`, `n ≥ 1`, invokes
`RollbackToSavepoint` with exactly the name that the matching `Tx()` call
(made at nesting counter `n - 1` with the transaction open) passed to
`Savepoint` when it created level `n`; on success the counter decrements
to `n - 1` with the transaction handle and current executor unchanged; on
failure the whole provider state is unchanged. -/
theorem rollback_nested_savepoint (env envP : DBSem δ τ ε)
    (zp zpPrev : zestyprovider δ τ) (t tp : τ) (n : Int)
    (htx : zp.tx = some t) (hn : zp.nested = n) (h1 : 1 ≤ n)
    (hptx : zpPrev.tx = some tp) (hpn : zpPrev.nested = n - 1) :
    (zpPrev.Tx envP).trace = [DBOp.savepoint (savepointName n)] ∧
    (zp.Rollback env).trace = [DBOp.rollbackToSavepoint (savepointName n)] ∧
    (env.RollbackToSavepoint t (savepointName n) = none →
      zp.Rollback env =
        ⟨none, { zp with nested := n - 1 },
          [DBOp.rollbackToSavepoint (savepointName n)]⟩) ∧
    (∀ e, env.RollbackToSavepoint t (savepointName n) = some e →
      zp.Rollback env =
        ⟨some (ZError.under e), zp,
          [DBOp.rollbackToSavepoint (savepointName n)]⟩) := by
  have hname : zpPrev.nested + 1 = n := by omega
  refine ⟨?_, ?_, ?_, ?_⟩
  · simp only [zestyprovider.Tx, hptx, hname]
    rcases hsp : envP.Savepoint tp (savepointName n) with _ | e
    · rfl
    · rfl
  · simp only [zestyprovider.Rollback, htx]
    rw [if_pos (by omega)]
    rcases hr : env.RollbackToSavepoint t (savepointName zp.nested) with _ | e
    · simp [hn]
    · simp [hn]
  · intro hok
    simp only [zestyprovider.Rollback, htx]
    rw [if_pos (by omega), hn, hok]
  · intro e he
    simp only [zestyprovider.Rollback, htx]
    rw [if_pos (by omega), hn, he]

/-- Witness for C4 at `Nested(2)` (matching `Tx()` made from `Nested(1)`),
with a driver that accepts the rollback. -/
theorem rollback_nested_savepoint_witness :
    zpNested2.tx = some 5 ∧ zpNested2.nested = 2 ∧ zpNested1.tx = some 5 ∧
    zpNested1.nested = 2 - 1 ∧
    (zpNested1.Tx envOK).trace = [DBOp.savepoint (savepointName 2)] ∧
    (zpNested2.Rollback envOK).trace =
      [DBOp.rollbackToSavepoint (savepointName 2)] := by
  refine ⟨by decide, by decide, by decide, by decide, ?_, ?_⟩
  · exact (rollback_nested_savepoint envOK envOK zpNested2 zpNested1 5 5 2
      (by decide) (by decide) (by decide) (by decide) (by decide)).1
  · exact (rollback_nested_savepoint envOK envOK zpNested2 zpNested1 5 5 2
      (by decide) (by decide) (by decide) (by decide) (by decide)).2.1

/-- C5 -- Whenever an underlying operation invoked by `Tx()`, `Commit()`
or `Rollback()` fails, the provider surfaces that same driver error
unchanged (as `ZError.under e`) and its state is exactly what it was
before the call: every failure branch of the three methods returns the
untouched receiver. -/
theorem failure_no_partial_transition (env : DBSem δ τ ε)
    (zp : zestyprovider δ τ) :
    (∀ e, zp.tx = none → env.Begin zp.db = Except.error e →
      zp.Tx env = ⟨some (ZError.under e), zp, [DBOp.beginTx]⟩) ∧
    (∀ t e, zp.tx = some t →
      env.Savepoint t (savepointName (zp.nested + 1)) = some e →
      zp.Tx env =
        ⟨some (ZError.under e), zp,
          [DBOp.savepoint (savepointName (zp.nested + 1))]⟩) ∧
    (∀ t e, zp.tx = some t → ¬ 0 < zp.nested → env.Commit t = some e →
      zp.Commit env = ⟨some (ZError.under e), zp, [DBOp.commit]⟩) ∧
    (∀ t e, zp.tx = some t → 0 < zp.nested →
      env.RollbackToSavepoint t (savepointName zp.nested) = some e →
      zp.Rollback env =
        ⟨some (ZError.under e), zp,
          [DBOp.rollbackToSavepoint (savepointName zp.nested)]⟩) ∧
    (∀ t e, zp.tx = some t → ¬ 0 < zp.nested → env.Rollback t = some e →
      zp.Rollback env = ⟨some (ZError.under e), zp, [DBOp.rollback]⟩) := by
  refine ⟨?_, ?_, ?_, ?_, ?_⟩
  · intro e htx hb
    simp [zestyprovider.Tx, htx, hb]
  · intro t e htx hsp
    simp [zestyprovider.Tx, htx, hsp]
  · intro t e htx hn hc
    simp only [zestyprovider.Commit, htx]
    rw [if_neg hn, hc]
  · intro t e htx hn hr
    simp only [zestyprovider.Rollback, htx]
    rw [if_pos hn, hr]
  · intro t e htx hn hr
    simp only [zestyprovider.Rollback, htx]
    rw [if_neg hn, hr]

/-- Witness for C5: a failing `Begin` on a fresh provider and a failing
`Commit` at `Open` both surface driver error 7 and leave the state
untouched. -/
theorem failure_no_partial_transition_witness :
    (NewTempDBProvider 0 : zestyprovider Nat Nat).Tx envBad =
      ⟨some (ZError.under 7), NewTempDBProvider 0, [DBOp.beginTx]⟩ ∧
    zpOpen.Commit envBad = ⟨some (ZError.under 7), zpOpen, [DBOp.commit]⟩ := by
  constructor
  · exact (failure_no_partial_transition envBad (NewTempDBProvider 0)).1 7
      (by decide) rfl
  · exact (failure_no_partial_transition envBad zpOpen).2.2.1 5 7 (by decide)
      (by decide) rfl

/-- C6 -- `Commit()` and `Rollback()` fail with the no-active-transaction
error exactly when no transaction handle is present, and then mutate
nothing; a successful outermost `Commit()` or `Rollback()` (transaction
open, depth 0) resets the provider, after which every further `Commit()`
or `Rollback()` fails with the no-active-transaction error. -/
theorem no_active_tx_exactly_idle (env env2 : DBSem δ τ ε)
    (zp : zestyprovider δ τ) :
    ((zp.Commit env).err = some ZError.noActiveTx ↔ zp.tx = none) ∧
    ((zp.Rollback env).err = some ZError.noActiveTx ↔ zp.tx = none) ∧
    (zp.tx = none →
      zp.Commit env = ⟨some ZError.noActiveTx, zp, []⟩ ∧
      zp.Rollback env = ⟨some ZError.noActiveTx, zp, []⟩) ∧
    (zp.nested = 0 → zp.tx ≠ none → (zp.Commit env).err = none →
      (zp.Commit env).zp = zp.resetTx ∧
      ((zp.Commit env).zp.Commit env2).err = some ZError.noActiveTx ∧
      ((zp.Commit env).zp.Rollback env2).err = some ZError.noActiveTx) ∧
    (zp.nested = 0 → zp.tx ≠ none → (zp.Rollback env).err = none →
      (zp.Rollback env).zp = zp.resetTx ∧
      ((zp.Rollback env).zp.Commit env2).err = some ZError.noActiveTx ∧
      ((zp.Rollback env).zp.Rollback env2).err = some ZError.noActiveTx) := by
  have hcommit : ∀ (zq : zestyprovider δ τ),
      (zq.Commit env).err = some ZError.noActiveTx ↔ zq.tx = none := by
    intro zq
    rcases htx : zq.tx with _ | t
    · simp [zestyprovider.Commit, htx]
    · simp only [zestyprovider.Commit, htx]
      by_cases hn : 0 < zq.nested
      · rw [if_pos hn]
        simp
      · rw [if_neg hn]
        rcases hc : env.Commit t with _ | e
        · simp
        · simp
  have hrollback : ∀ (zq : zestyprovider δ τ),
      (zq.Rollback env).err = some ZError.noActiveTx ↔ zq.tx = none := by
    intro zq
    rcases htx : zq.tx with _ | t
    · simp [zestyprovider.Rollback, htx]
    · simp only [zestyprovider.Rollback, htx]
      by_cases hn : 0 < zq.nested
      · rw [if_pos hn]
        rcases hr : env.RollbackToSavepoint t (savepointName zq.nested) with _ | e
        · simp
        · simp
      · rw [if_neg hn]
        rcases hr : env.Rollback t with _ | e
        · simp
        · simp
  have hcz : ∀ (zq : zestyprovider δ τ), zq.tx = none →
      (zq.Commit env2).err = some ZError.noActiveTx := by
    intro zq h
    simp [zestyprovider.Commit, h]
  have hrz : ∀ (zq : zestyprovider δ τ), zq.tx = none →
      (zq.Rollback env2).err = some ZError.noActiveTx := by
    intro zq h
    simp [zestyprovider.Rollback, h]
  refine ⟨hcommit zp, hrollback zp, ?_, ?_, ?_⟩
  · intro htx
    constructor
    · simp [zestyprovider.Commit, htx]
    · simp [zestyprovider.Rollback, htx]
  · intro hn htx herr
    rcases hx : zp.tx with _ | t
    · exact absurd hx htx
    have hres : (zp.Commit env).zp = zp.resetTx := by
      simp only [zestyprovider.Commit, hx] at herr ⊢
      rw [if_neg (by omega)] at herr ⊢
      rcases hc : env.Commit t with _ | e
      · rfl
      · rw [hc] at herr
        simp at herr
    refine ⟨hres, ?_, ?_⟩
    · rw [hres]
      exact hcz _ (by simp [zestyprovider.resetTx])
    · rw [hres]
      exact hrz _ (by simp [zestyprovider.resetTx])
  · intro hn htx herr
    rcases hx : zp.tx with _ | t
    · exact absurd hx htx
    have hres : (zp.Rollback env).zp = zp.resetTx := by
      simp only [zestyprovider.Rollback, hx] at herr ⊢
      rw [if_neg (by omega)] at herr ⊢
      rcases hr : env.Rollback t with _ | e
      · rfl
      · rw [hr] at herr
        simp at herr
    refine ⟨hres, ?_, ?_⟩
    · rw [hres]
      exact hcz _ (by simp [zestyprovider.resetTx])
    · rw [hres]
      exact hrz _ (by simp [zestyprovider.resetTx])

/-- Witness for C6: a successful outermost `Commit` at `Open` resets the
provider and the next `Commit` fails with the no-active-transaction
error. -/
theorem no_active_tx_exactly_idle_witness :
    (zpOpen.Commit envOK).zp = zpOpen.resetTx ∧
    ((zpOpen.Commit envOK).zp.Commit envOK).err = some ZError.noActiveTx := by
  have h := (no_active_tx_exactly_idle envOK envOK zpOpen).2.2.2.1
    (by decide) (by decide) (by decide)
  exact ⟨h.1, h.2.1⟩

/-- C7 -- The depth-returning transaction-entering operation behaves like
`Tx()` on the provider state and returns the depth at which the unit of
work now sits: 0 when called from `Idle` (where it opens the real
transaction), and `n + 1` when called from `Open` or `Nested(n)` (where it
creates a savepoint); on success from `Idle` the nesting counter is
unchanged at 0, and on success from `Nested(n)` the new nesting counter
equals the returned depth. -/
theorem txsavepoint_returns_depth (env : DBSem δ τ ε)
    (zp : zestyprovider δ τ) :
    (zp.TxSavepoint env).1 = zp.Tx env ∧
    (zp.tx = none → (zp.TxSavepoint env).2 = 0) ∧
    (∀ t, zp.tx = some t → (zp.TxSavepoint env).2 = zp.nested + 1) ∧
    (∀ t, zp.tx = some t → (zp.TxSavepoint env).1.err = none →
      (zp.TxSavepoint env).1.zp.nested = (zp.TxSavepoint env).2) ∧
    (zp.tx = none → (zp.TxSavepoint env).1.err = none →
      (zp.TxSavepoint env).1.zp.nested = zp.nested) := by
  rcases htx : zp.tx with _ | t
  · refine ⟨by simp [zestyprovider.TxSavepoint, htx],
      fun _ => by simp [zestyprovider.TxSavepoint, htx],
      fun t h => by simp [htx] at h, fun t h => by simp [htx] at h, ?_⟩
    intro _ herr
    simp only [zestyprovider.TxSavepoint, htx, zestyprovider.Tx] at herr ⊢
    rcases hb : env.Begin zp.db with e | t
    · rw [hb] at herr
    · rfl
  · refine ⟨by simp [zestyprovider.TxSavepoint, htx],
      fun h => by simp [htx] at h,
      fun t2 h => by simp [zestyprovider.TxSavepoint, htx], ?_,
      fun h => by simp [htx] at h⟩
    intro t2 h2 herr
    simp only [zestyprovider.TxSavepoint, htx, zestyprovider.Tx] at herr ⊢
    rcases hsp : env.Savepoint t (savepointName (zp.nested + 1)) with _ | e
    · rfl
    · rw [hsp] at herr
      exact absurd herr (by simp)

/-- Witness for C7: from `Nested(1)` the operation returns depth 2, from a
fresh provider it returns depth 0. -/
theorem txsavepoint_returns_depth_witness :
    (zpNested1.TxSavepoint envOK).2 = zpNested1.nested + 1 ∧
    ((NewTempDBProvider 0 : zestyprovider Nat Nat).TxSavepoint envOK).2 = 0 := by
  constructor
  · exact (txsavepoint_returns_depth envOK zpNested1).2.2.1 5 (by decide)
  · exact (txsavepoint_returns_depth envOK (NewTempDBProvider 0)).2.1 (by decide)

/-- C8 -- The provider surface exposes `RollbackTo(level)`, and calling it
when the savepoint for `level` no longer exists (already consumed: the
current nesting counter is below `level`) succeeds as a no-op: no error,
no underlying operation, provider state unchanged. -/
theorem rollbackto_consumed_noop (env : DBSem δ τ ε)
    (zp : zestyprovider δ τ) (level : Int) (t : τ)
    (htx : zp.tx = some t) (hcons : zp.nested < level) :
    zp.RollbackTo env level = ⟨none, zp, []⟩ := by
  simp only [zestyprovider.RollbackTo, htx]
  rw [if_neg (by omega)]

/-- Witness for C8: the redundant call of the test scenario (savepoint for
level 1 already consumed by the preceding `Rollback`, counter at 0). -/
theorem rollbackto_consumed_noop_witness :
    zpOpen.tx = some 5 ∧ zpOpen.nested < 1 ∧
    zpOpen.RollbackTo envOK 1 = ⟨none, zpOpen, []⟩ := by
  refine ⟨by decide, by decide, ?_⟩
  exact rollbackto_consumed_noop envOK zpOpen 1 5 (by decide) (by decide)

/-- C9, counterexample -- Two distinct providers sharing a resource, both
at nesting counter 1, pass the identical savepoint name `tx-nested-2` to
their transactions: names are derived from the depth alone, with no
per-provider identifier. -/
theorem savepoint_name_collision_counterexample :
    zpNested1 ≠ zpOther ∧ zpNested1.db = 0 ∧ zpOther.db = 1 ∧
    (zpNested1.Tx envOK).trace = [DBOp.savepoint "tx-nested-2"] ∧
    (zpOther.Tx envOK).trace = [DBOp.savepoint "tx-nested-2"] := by
  refine ⟨by decide, rfl, rfl, rfl, rfl⟩

/-- C9, amended -- The savepoint name passed by `Tx()` is a deterministic
function of the per-provider nesting counter alone (`tx-nested-(n+1)`):
any two providers with an open transaction and equal nesting counters pass
the same name, whatever their identity and whatever the driver replies. -/
theorem savepoint_name_depth_only (env env2 : DBSem δ τ ε)
    (zp zp2 : zestyprovider δ τ) (t t2 : τ)
    (h1 : zp.tx = some t) (h2 : zp2.tx = some t2)
    (hn : zp.nested = zp2.nested) :
    (zp.Tx env).trace = [DBOp.savepoint (savepointName (zp.nested + 1))] ∧
    (zp.Tx env).trace = (zp2.Tx env2).trace := by
  have htr : ∀ (e3 : DBSem δ τ ε) (zq : zestyprovider δ τ) (tq : τ),
      zq.tx = some tq →
      (zq.Tx e3).trace = [DBOp.savepoint (savepointName (zq.nested + 1))] := by
    intro e3 zq tq hq
    simp only [zestyprovider.Tx, hq]
    rcases hsp : e3.Savepoint tq (savepointName (zq.nested + 1)) with _ | e
    · rfl
    · rfl
  refine ⟨htr env zp t h1, ?_⟩
  rw [htr env zp t h1, htr env2 zp2 t2 h2, hn]

/-- Witness for the amended C9: the two distinct providers of the
counterexample, both at counter 1, with different driver behaviours. -/
theorem savepoint_name_depth_only_witness :
    (zpNested1.Tx envOK).trace = (zpOther.Tx envBad).trace := by
  exact (savepoint_name_depth_only envOK envBad zpNested1 zpOther 5 9
    (by decide) (by decide) (by decide)).2

/-- C10 -- A provider freshly returned by `NewDBProvider(name)` after a
successful `RegisterDB(db, name)`, like one returned by
`NewTempDBProvider(db)`, starts in `Idle`: no transaction handle, nesting
counter 0, and `DB()` returns exactly the registered or supplied base
DB. -/
theorem fresh_provider_idle (dbs dbs2 : Registry δ) (db : δ) (name : String)
    (zp : zestyprovider δ τ)
    (hreg : RegisterDB dbs db name = Except.ok dbs2)
    (hnew : NewDBProvider dbs2 name = Except.ok zp) :
    zp = NewTempDBProvider db ∧ zp.tx = none ∧ zp.nested = 0 ∧
    zp.DB = Executor.base db ∧
    (NewTempDBProvider db : zestyprovider δ τ).tx = none ∧
    (NewTempDBProvider db : zestyprovider δ τ).nested = 0 ∧
    (NewTempDBProvider db : zestyprovider δ τ).DB = Executor.base db := by
  have hdbs2 : dbs2 = (name, db) :: dbs := by
    simp only [RegisterDB] at hreg
    rcases hl : (List.lookup name dbs : Option δ) with _ | d
    · rw [hl] at hreg
      simpa using hreg.symm
    · rw [hl] at hreg
      simp at hreg
  have hzp : zp = NewTempDBProvider db := by
    simp only [NewDBProvider, hdbs2, List.lookup, beq_self_eq_true] at hnew
    simpa [NewTempDBProvider] using hnew.symm
  subst hzp
  exact ⟨rfl, rfl, rfl, rfl, rfl, rfl, rfl⟩

/-- Witness for C10: register DB 7 under the name db in an empty registry
and build a provider for it. -/
theorem fresh_provider_idle_witness :
    RegisterDB ([] : Registry Nat) 7 "db" = Except.ok [("db", 7)] ∧
    (NewDBProvider [("db", 7)] "db" : Except RegError (zestyprovider Nat Nat)) =
      Except.ok (NewTempDBProvider 7) ∧
    (NewTempDBProvider 7 : zestyprovider Nat Nat).tx = none ∧
    (NewTempDBProvider 7 : zestyprovider Nat Nat).nested = 0 ∧
    (NewTempDBProvider 7 : zestyprovider Nat Nat).DB = Executor.base 7 := by
  refine ⟨rfl, rfl, ?_⟩
  have h := fresh_provider_idle (τ := Nat) ([] : Registry Nat) [("db", 7)] 7 "db"
    (NewTempDBProvider 7) rfl rfl
  exact ⟨h.2.1, h.2.2.1, h.2.2.2.1⟩

end Zesty
